import Mathlib

/-!
Shallow embedding of the text-extraction-and-sectioning pipeline of
`main_dash_app.py` (PDF_Text_Extractor).

Texts are modelled as `List Char`.  Python's `str.find` is modelled by
`strFind` (returning `Option Nat`: `none` stands for Python's `-1`).
Python slices `s[i:]` / `s[:i]` with a nonnegative index are `List.drop` /
`List.take`; the one place the source slices with a possibly negative index
(`body[postfix_index:]` with `postfix_index = -1` when the print-date marker
is absent, lines 104-106) is modelled explicitly with `length - 1`.

Python `dict`s preserve insertion order; the section maps are modelled as
association lists `List (String × List Char)` in insertion order (all keys
inserted by the source are distinct string literals, so `dict.update` and
key assignment are list appends).
-/

namespace PdfTextExtractor

/-- Character from a code point, used to spell out the Hebrew/bidi marker
strings of the source byte-exactly. -/
def ch (n : Nat) : Char := Char.ofNat n

/-- Marker of the macroscopic-description section, line 55 of
`main_dash_app.py`: code points
5EA 5D0 5D5 5E8 20 5DE 5D0 5E7 5E8 5D5 5E1 5E7 5D5 5E4 5D9 202A 3A 202C 202C. -/
def markerMacroscopic : List Char :=
  [ch 0x5EA, ch 0x5D0, ch 0x5D5, ch 0x5E8, ch 0x20, ch 0x5DE, ch 0x5D0,
   ch 0x5E7, ch 0x5E8, ch 0x5D5, ch 0x5E1, ch 0x5E7, ch 0x5D5, ch 0x5E4,
   ch 0x5D9, ch 0x202A, ch 0x3A, ch 0x202C, ch 0x202C]

/-- Marker of the diagnosis section, line 61: code points
5D0 5D1 5D7 5E0 5D4 202A 3A 202C 202C. -/
def markerDiagnosis : List Char :=
  [ch 0x5D0, ch 0x5D1, ch 0x5D7, ch 0x5E0, ch 0x5D4, ch 0x202A, ch 0x3A,
   ch 0x202C, ch 0x202C]

/-- Marker of the previous-tests section, line 67: code points
202B 5D1 5D3 5D9 5E7 5D5 5EA 20 5E7 5D5 5D3 5DE 5D5 5EA 202A 3A. -/
def markerPrevTests : List Char :=
  [ch 0x202B, ch 0x5D1, ch 0x5D3, ch 0x5D9, ch 0x5E7, ch 0x5D5, ch 0x5EA,
   ch 0x20, ch 0x5E7, ch 0x5D5, ch 0x5D3, ch 0x5DE, ch 0x5D5, ch 0x5EA,
   ch 0x202A, ch 0x3A]

/-- Marker of the clinical-information section, line 73, and also the first
entry of `prefix_options` on line 97 (the two literals are code-point
identical): 202B 5E4 5E8 5D8 5D9 5DD 20 5E7 5DC 5D9 5E0 5D9 5D9 5DD 202A 3A. -/
def markerClinical : List Char :=
  [ch 0x202B, ch 0x5E4, ch 0x5E8, ch 0x5D8, ch 0x5D9, ch 0x5DD, ch 0x20,
   ch 0x5E7, ch 0x5DC, ch 0x5D9, ch 0x5E0, ch 0x5D9, ch 0x5D9, ch 0x5DD,
   ch 0x202A, ch 0x3A]

/-- Second entry of `prefix_options` on line 97.  It differs from
`markerPrevTests`: no leading 202B, and a trailing 202C 202C.  Code points
5D1 5D3 5D9 5E7 5D5 5EA 20 5E7 5D5 5D3 5DE 5D5 5EA 202A 3A 202C 202C. -/
def markerPrevTestsOuter : List Char :=
  [ch 0x5D1, ch 0x5D3, ch 0x5D9, ch 0x5E7, ch 0x5D5, ch 0x5EA, ch 0x20,
   ch 0x5E7, ch 0x5D5, ch 0x5D3, ch 0x5DE, ch 0x5D5, ch 0x5EA, ch 0x202A,
   ch 0x3A, ch 0x202C, ch 0x202C]

/-- Third entry of `prefix_options` on line 97.  It is `markerDiagnosis`
preceded by 202B: code points 202B 5D0 5D1 5D7 5E0 5D4 202A 3A 202C 202C. -/
def markerDiagnosisOuter : List Char :=
  [ch 0x202B, ch 0x5D0, ch 0x5D1, ch 0x5D7, ch 0x5E0, ch 0x5D4, ch 0x202A,
   ch 0x3A, ch 0x202C, ch 0x202C]

/-- Print-date footer marker, line 104: code points
5EA 5D0 5E8 5D9 5DA 20 5D4 5D3 5E4 5E1 5D4 202A 3A 202C 202C. -/
def markerPrintDate : List Char :=
  [ch 0x5EA, ch 0x5D0, ch 0x5E8, ch 0x5D9, ch 0x5DA, ch 0x20, ch 0x5D4,
   ch 0x5D3, ch 0x5E4, ch 0x5E1, ch 0x5D4, ch 0x202A, ch 0x3A, ch 0x202C,
   ch 0x202C]

/-- Worker for `strFind`: first index `≥ n` at which `sub` starts in the
suffix `s` (where `n` is the offset of `s` in the original list). -/
def strFindAux (sub : List Char) : List Char → Nat → Option Nat
  | [], n => if sub.isPrefixOf [] then some n else none
  | c :: t, n => if sub.isPrefixOf (c :: t) then some n else strFindAux sub t (n + 1)

/-- Python's `s.find(sub)`: the least index at which `sub` occurs in `s`,
`none` standing for Python's `-1`. -/
def strFind (s sub : List Char) : Option Nat := strFindAux sub s 0

/-- One step of the shrinking-remainder segmentation (one of the four
`find` / slice / truncate blocks of `get_pathology_body_parts`, lines
54-76): if the marker occurs at least once, the captured section is
everything from its first occurrence to the end, and the remainder is
everything strictly before it; otherwise nothing is captured and the
remainder is unchanged. -/
def peel (s marker : List Char) : Option (List Char) × List Char :=
  match strFind s marker with
  | some i => (some (s.drop i), s.take i)
  | none => (none, s)

/-- Conditional insertion into the result map (`if ..._index != -1:` blocks
on lines 79-86): a found section contributes one entry, an absent marker
contributes nothing. -/
def optEntry (name : String) : Option (List Char) → List (String × List Char)
  | some v => [(name, v)]
  | none => []

/-- Translation of `get_pathology_body_parts` (lines 47-87): peel the body in
the fixed priority order macroscopic description, diagnosis, previous tests,
clinical information, then re-insert the found sections in the reversed
(canonical) order. -/
def get_pathology_body_parts (body : List Char) : List (String × List Char) :=
  -- macro_desc (lines 55-58)
  let s1 := peel body markerMacroscopic
  -- diagnosis (lines 61-64)
  let s2 := peel s1.2 markerDiagnosis
  -- prev_tests (lines 67-70)
  let s3 := peel s2.2 markerPrevTests
  -- clinical_info (lines 73-76)
  let s4 := peel s3.2 markerClinical
  -- ans_body_parts_dict (lines 78-87)
  optEntry "Clinical Information" s4.1 ++ optEntry "Previous Tests" s3.1 ++
    optEntry "Diagnosis" s2.1 ++ optEntry "Macroscopic Description" s1.1

/-- Final value of the local variable `body` in `get_pathology_body_parts`
(line 76): the prefix of the body left over after the four peels.  The source
discards it; it is named here because the reconstruction results are about
it. -/
def bodyLeftover (body : List Char) : List Char :=
  (peel (peel (peel (peel body markerMacroscopic).2 markerDiagnosis).2
      markerPrevTests).2 markerClinical).2

/-- Translation of the header/body split of `get_partial_content` (lines
96-103): the `for p in prefix_options` loop tries the clinical, outer
previous-tests and outer diagnosis markers in that order and `break`s at the
first one that occurs; `header` and `body` keep their initial empty values
when none occurs. -/
def outer_split (original_content : List Char) : List Char × List Char :=
  match strFind original_content markerClinical with
  | some i => (original_content.take i, original_content.drop i)
  | none =>
    match strFind original_content markerPrevTestsOuter with
    | some i => (original_content.take i, original_content.drop i)
    | none =>
      match strFind original_content markerDiagnosisOuter with
      | some i => (original_content.take i, original_content.drop i)
      | none => ([], [])

/-- Translation of the footer cut of `get_partial_content` (lines 104-106).
The source does not guard `postfix_index` against `-1`: when the print-date
marker is absent, Python evaluates `body[:-1]` and `body[-1:]`, i.e. the body
loses its last character and the footer becomes that character (both empty
when the body is empty).  Returns `(body, footer)`. -/
def footer_split (body : List Char) : List Char × List Char :=
  match strFind body markerPrintDate with
  | some i => (body.take i, body.drop i)
  | none => (body.take (body.length - 1), body.drop (body.length - 1))

/-- Translation of `get_partial_content` (lines 90-112): outer split, footer
cut, inner body sectioning, then assembly of the ordered map with the header
first and the footer last. -/
def get_partial_content (original_content : List Char) : List (String × List Char) :=
  let hb := outer_split original_content
  let bf := footer_split hb.2
  ("General Information", hb.1) ::
    (get_pathology_body_parts bf.1 ++ [("Document Footer Information", bf.2)])

/-- Concatenation of all section values of a section map, in map (insertion)
order. -/
def sectionConcat (m : List (String × List Char)) : List Char :=
  (m.map Prod.snd).flatten

/-! ### Properties of `strFind` (Python `str.find`) -/

/-- When the worker answers `some i`, then `i ≥ n` and the pattern occurs at
offset `i - n` of the remaining suffix. -/
theorem strFindAux_some {sub : List Char} :
    ∀ {s : List Char} {n i : Nat}, strFindAux sub s n = some i →
      n ≤ i ∧ sub <+: s.drop (i - n) := by
  intro s
  induction s with
  | nil =>
    intro n i h
    simp only [strFindAux] at h
    split at h
    · cases h
      refine ⟨Nat.le_refl _, ?_⟩
      rw [Nat.sub_self, List.drop_nil]
      exact List.isPrefixOf_iff_prefix.mp (by assumption)
    · cases h
  | cons c t ih =>
    intro n i h
    simp only [strFindAux] at h
    split at h
    · cases h
      refine ⟨Nat.le_refl _, ?_⟩
      rw [Nat.sub_self, List.drop_zero]
      exact List.isPrefixOf_iff_prefix.mp (by assumption)
    · obtain ⟨h1, h2⟩ := ih h
      refine ⟨Nat.le_of_succ_le h1, ?_⟩
      have hin : i - n = (i - (n + 1)) + 1 := by omega
      rw [hin, List.drop_succ_cons]
      exact h2

/-- When the worker answers `some i`, there is no occurrence strictly between
the offset `n` and `i`. -/
theorem strFindAux_min {sub : List Char} :
    ∀ {s : List Char} {n i : Nat}, strFindAux sub s n = some i →
      ∀ j, n ≤ j → j < i → ¬ sub <+: s.drop (j - n) := by
  intro s
  induction s with
  | nil =>
    intro n i h j hnj hji hpre
    simp only [strFindAux] at h
    split at h
    · cases h; omega
    · cases h
  | cons c t ih =>
    intro n i h j hnj hji hpre
    simp only [strFindAux] at h
    split at h
    · cases h; omega
    · rcases Nat.eq_or_lt_of_le hnj with rfl | hlt
      · rw [Nat.sub_self, List.drop_zero] at hpre
        exact (by assumption : ¬ sub.isPrefixOf (c :: t) = true)
          (List.isPrefixOf_iff_prefix.mpr hpre)
      · have hj' : j - n = (j - (n + 1)) + 1 := by omega
        rw [hj', List.drop_succ_cons] at hpre
        exact ih h j hlt hji hpre

/-- When the worker answers `none`, the pattern occurs nowhere. -/
theorem strFindAux_none {sub : List Char} :
    ∀ {s : List Char} {n : Nat}, strFindAux sub s n = none →
      ∀ j, ¬ sub <+: s.drop j := by
  intro s
  induction s with
  | nil =>
    intro n h j hpre
    simp only [strFindAux] at h
    split at h
    · cases h
    · rw [List.drop_nil] at hpre
      exact (by assumption : ¬ sub.isPrefixOf ([] : List Char) = true)
        (List.isPrefixOf_iff_prefix.mpr hpre)
  | cons c t ih =>
    intro n h j hpre
    simp only [strFindAux] at h
    split at h
    · cases h
    · cases j with
      | zero =>
        rw [List.drop_zero] at hpre
        exact (by assumption : ¬ sub.isPrefixOf (c :: t) = true)
          (List.isPrefixOf_iff_prefix.mpr hpre)
      | succ j =>
        rw [List.drop_succ_cons] at hpre
        exact ih h j hpre

/-- A `some` answer of `strFind` is a real occurrence: the pattern is a
prefix of the suffix starting there. -/
theorem strFind_some {s sub : List Char} {i : Nat} (h : strFind s sub = some i) :
    sub <+: s.drop i := by
  have h2 := (strFindAux_some h).2
  simpa using h2

/-- A `some` answer of `strFind` is the first occurrence. -/
theorem strFind_min {s sub : List Char} {i : Nat} (h : strFind s sub = some i) :
    ∀ j, j < i → ¬ sub <+: s.drop j := by
  intro j hj
  have := strFindAux_min h j (Nat.zero_le j) hj
  simpa using this

/-- A `none` answer of `strFind` means the pattern occurs nowhere. -/
theorem strFind_none {s sub : List Char} (h : strFind s sub = none) :
    ∀ j, ¬ sub <+: s.drop j :=
  strFindAux_none h

/-- A pattern that starts the string is found at index 0. -/
theorem strFind_of_pre {s sub : List Char} (h : sub <+: s) :
    strFind s sub = some 0 := by
  cases s <;>
    simp [strFind, strFindAux, List.isPrefixOf_iff_prefix.mpr h]

/-! ### Properties of `peel` -/

/-- The remainder followed by the captured section (when any) is the whole
input: one peel step loses nothing. -/
theorem peel_concat (s m : List Char) :
    (peel s m).2 ++ ((peel s m).1.getD []) = s := by
  cases h : strFind s m <;> simp [peel, h]

/-- Chained form of `peel_concat`. -/
theorem peel_concat_append (s m rest : List Char) :
    (peel s m).2 ++ (((peel s m).1.getD []) ++ rest) = s ++ rest := by
  rw [← List.append_assoc, peel_concat]

/-- The remainder of a peel step is a prefix of its input: the search window
shrinks. -/
theorem peel_rem_pre (s m : List Char) : (peel s m).2 <+: s := by
  cases h : strFind s m with
  | none => simp [peel, h]
  | some i =>
    simp only [peel, h]
    exact ⟨s.drop i, List.take_append_drop i s⟩

/-- Computation rule for a successful peel step. -/
theorem peel_eq_of_find {s m : List Char} {j : Nat}
    (h : strFind s m = some j) :
    peel s m = (some (s.drop j), s.take j) := by
  simp only [peel, h]

/-- A captured section starts with the marker that was searched for. -/
theorem peel_sec_pre {s m v : List Char} (h : (peel s m).1 = some v) :
    m <+: v := by
  cases hf : strFind s m with
  | none => simp [peel, hf] at h
  | some i =>
    simp only [peel, hf, Option.some.injEq] at h
    subst h
    exact strFind_some hf

/-! ### Character-level facts about the clinical marker

The clinical-information marker has 16 characters.  None of the other
markers can occur at an index `< 16` of a text that starts with the clinical
marker; this is what makes the inner segmentation consume the whole body when
the body starts with the clinical marker. -/

theorem markerClinical_length : markerClinical.length = 16 := rfl

/-- No prefix of `m` long enough to fill the rest of the clinical marker
matches inside it: `m` cannot occur at any index `< 16` of a text starting
with the clinical marker. -/
def noEarlyOcc (m : List Char) : Prop :=
  ∀ j, j < 16 → (m.take (16 - j)).isPrefixOf (markerClinical.drop j) = false

theorem noEarly_mac : noEarlyOcc markerMacroscopic := by
  unfold noEarlyOcc; decide

theorem noEarly_diag : noEarlyOcc markerDiagnosis := by
  unfold noEarlyOcc; decide

theorem noEarly_prev : noEarlyOcc markerPrevTests := by
  unfold noEarlyOcc; decide

theorem noEarly_printDate : noEarlyOcc markerPrintDate := by
  unfold noEarlyOcc; decide

/-- In a text that starts with the clinical marker, any occurrence of a
marker `m` with `noEarlyOcc m` is at index ≥ 16. -/
theorem find_ge_of_clin {s m : List Char} {i : Nat}
    (hfind : strFind s m = some i) (hclin : markerClinical <+: s)
    (hne : noEarlyOcc m) : 16 ≤ i := by
  by_contra hlt
  push_neg at hlt
  have hocc : m <+: s.drop i := strFind_some hfind
  obtain ⟨t, ht⟩ := hclin
  have hdrop : s.drop i = markerClinical.drop i ++ t := by
    rw [← ht, List.drop_append_of_le_length
      (by rw [markerClinical_length]; omega)]
  have h1 : m.take (16 - i) <+: s.drop i :=
    List.IsPrefix.trans ⟨m.drop (16 - i), List.take_append_drop _ m⟩ hocc
  have h2 : markerClinical.drop i <+: s.drop i := by
    rw [hdrop]; exact ⟨t, rfl⟩
  have hlen : (m.take (16 - i)).length ≤ (markerClinical.drop i).length := by
    rw [List.length_take, List.length_drop, markerClinical_length]
    exact Nat.min_le_left _ _
  have h3 : m.take (16 - i) <+: markerClinical.drop i :=
    List.prefix_of_prefix_length_le h1 h2 hlen
  exact absurd (List.isPrefixOf_iff_prefix.mpr h3) (by simp [hne i hlt])

/-- Truncating at or after index 16 keeps the clinical marker as a prefix. -/
theorem clin_pre_take {s : List Char} {i : Nat}
    (hclin : markerClinical <+: s) (hi : 16 ≤ i) :
    markerClinical <+: s.take i := by
  obtain ⟨t, rfl⟩ := hclin
  rw [List.take_append_eq_append_take,
    List.take_of_length_le (by rw [markerClinical_length]; omega)]
  exact ⟨_, rfl⟩

/-- A peel step with a `noEarlyOcc` marker keeps the clinical marker as a
prefix of the remainder. -/
theorem peel_keeps_clin {s m : List Char}
    (hclin : markerClinical <+: s) (hne : noEarlyOcc m) :
    markerClinical <+: (peel s m).2 := by
  cases hf : strFind s m with
  | none => simpa [peel, hf] using hclin
  | some i =>
    simp only [peel, hf]
    exact clin_pre_take hclin (find_ge_of_clin hf hclin hne)

/-! ### Reconstruction through `get_pathology_body_parts` -/

theorem sectionConcat_nil : sectionConcat [] = [] := rfl

/-- Pushing `sectionConcat` through a conditional entry. -/
theorem sectionConcat_optEntry (n : String) (o : Option (List Char))
    (rest : List (String × List Char)) :
    sectionConcat (optEntry n o ++ rest) = o.getD [] ++ sectionConcat rest := by
  cases o <;> simp [optEntry, sectionConcat]

/-- Value of `sectionConcat` on a single conditional entry. -/
theorem sectionConcat_optEntry_one (n : String) (o : Option (List Char)) :
    sectionConcat (optEntry n o) = o.getD [] := by
  cases o <;> simp [optEntry, sectionConcat]

/-- The leftover prefix followed by the section values in map order is the
whole body: the inner segmentation loses only the leftover. -/
theorem gpbp_concat (body : List Char) :
    bodyLeftover body ++ sectionConcat (get_pathology_body_parts body) = body := by
  simp only [get_pathology_body_parts, bodyLeftover, List.append_assoc,
    sectionConcat_optEntry, sectionConcat_optEntry_one, sectionConcat_nil,
    List.append_nil]
  rw [peel_concat_append, peel_concat_append, peel_concat_append, peel_concat]

/-! ### Lookup lemmas for the section maps -/

/-- Looking a key up past a conditional entry with a different name. -/
theorem lookup_optEntry_ne {k n : String} (h : (k == n) = false)
    (o : Option (List Char)) (rest : List (String × List Char)) :
    (optEntry n o ++ rest).lookup k = rest.lookup k := by
  cases o <;> simp [optEntry, List.lookup_cons, h]

/-- Looking up the own name of a conditional entry, when the tail does not
hold the key. -/
theorem lookup_optEntry_self (n : String) (o : Option (List Char))
    (rest : List (String × List Char)) (hrest : rest.lookup n = none) :
    (optEntry n o ++ rest).lookup n = o := by
  cases o <;> simp [optEntry, List.lookup_cons, hrest]

/-- The four body-section entries of `get_pathology_body_parts`, each equal to
the section captured by the corresponding peel step. -/
theorem gpbp_lookups (body : List Char) :
    ((get_pathology_body_parts body).lookup "Clinical Information" =
      (peel (peel (peel (peel body markerMacroscopic).2 markerDiagnosis).2
        markerPrevTests).2 markerClinical).1) ∧
    ((get_pathology_body_parts body).lookup "Previous Tests" =
      (peel (peel (peel body markerMacroscopic).2 markerDiagnosis).2
        markerPrevTests).1) ∧
    ((get_pathology_body_parts body).lookup "Diagnosis" =
      (peel (peel body markerMacroscopic).2 markerDiagnosis).1) ∧
    ((get_pathology_body_parts body).lookup "Macroscopic Description" =
      (peel body markerMacroscopic).1) := by
  simp only [get_pathology_body_parts]
  generalize (peel (peel (peel (peel body markerMacroscopic).2
    markerDiagnosis).2 markerPrevTests).2 markerClinical).1 = o4
  generalize (peel (peel (peel body markerMacroscopic).2 markerDiagnosis).2
    markerPrevTests).1 = o3
  generalize (peel (peel body markerMacroscopic).2 markerDiagnosis).1 = o2
  generalize (peel body markerMacroscopic).1 = o1
  cases o1 <;> cases o2 <;> cases o3 <;> cases o4 <;>
    simp [optEntry, List.lookup_cons]

/-- Looking up a body-section key in the full map of `get_partial_content`
reduces to looking it up in the inner body map. -/
theorem gpc_lookup_body (t : List Char) (n : String)
    (hGI : (n == "General Information") = false)
    (hDFI : (n == "Document Footer Information") = false) :
    (get_partial_content t).lookup n =
      (get_pathology_body_parts (footer_split (outer_split t).2).1).lookup n := by
  simp [get_partial_content, List.lookup_cons, List.lookup_append, hGI, hDFI]

/-! ### C1 — reconstruction invariant -/

/-- C1 (amended): for every input text that contains the clinical-information
marker (so the outer split fires on the first, highest-priority option) and
whose body — the text from that marker on — contains the print-date marker
(so the footer cut is the guarded branch), the section map of
`get_partial_content` is a partition of the input into consecutive slices:
concatenating the `General Information` value, the body section values in map
order (which is source-position order), and the `Document Footer Information`
value reconstructs the input exactly. -/
theorem C1_reconstruction (t : List Char) (i k : Nat)
    (hclin : strFind t markerClinical = some i)
    (hfoot : strFind (t.drop i) markerPrintDate = some k) :
    sectionConcat (get_partial_content t) = t := by
  have hbodypre : markerClinical <+: t.drop i := strFind_some hclin
  have hk : 16 ≤ k := find_ge_of_clin hfoot hbodypre noEarly_printDate
  have hb2 : markerClinical <+: (t.drop i).take k := clin_pre_take hbodypre hk
  have h1 : markerClinical <+: (peel ((t.drop i).take k) markerMacroscopic).2 :=
    peel_keeps_clin hb2 noEarly_mac
  have h2 : markerClinical <+:
      (peel (peel ((t.drop i).take k) markerMacroscopic).2 markerDiagnosis).2 :=
    peel_keeps_clin h1 noEarly_diag
  have h3 : markerClinical <+:
      (peel (peel (peel ((t.drop i).take k) markerMacroscopic).2
        markerDiagnosis).2 markerPrevTests).2 :=
    peel_keeps_clin h2 noEarly_prev
  have hlast := strFind_of_pre h3
  have hpeel0 : ∀ s : List Char, strFind s markerClinical = some 0 →
      (peel s markerClinical).2 = [] := by
    intro s hs
    simp only [peel, hs, List.take_zero]
  have hleft : bodyLeftover ((t.drop i).take k) = [] := by
    unfold bodyLeftover
    exact hpeel0 _ hlast
  have hmain := gpbp_concat ((t.drop i).take k)
  rw [hleft, List.nil_append] at hmain
  have houter : outer_split t = (t.take i, t.drop i) := by
    simp only [outer_split, hclin]
  have hfsplit : footer_split (t.drop i) = ((t.drop i).take k, (t.drop i).drop k) := by
    simp only [footer_split, hfoot]
  calc sectionConcat (get_partial_content t)
      = (outer_split t).1 ++
          (sectionConcat (get_pathology_body_parts (footer_split (outer_split t).2).1) ++
            (footer_split (outer_split t).2).2) := by
        simp [get_partial_content, sectionConcat]
    _ = t.take i ++ ((t.drop i).take k ++ (t.drop i).drop k) := by
        rw [houter, hfsplit, hmain]
    _ = t := by
        rw [List.take_append_drop, List.take_append_drop]

/-- C1 counterexample: three concrete inputs on which the concatenation of
the section values does not reconstruct the text.  (1) On the unmarked text
"hello" the map holds only the two synthetic sections, both empty, and the
whole input is dropped.  (2) When the outer split fires on the outer
diagnosis marker, the inner diagnosis marker is found one character later
(past the leading U+202B), and that character is dropped with the discarded
leftover of the inner segmentation.  (3) When the text is exactly the
clinical marker and the print-date marker is absent, the unguarded footer cut
slices one character off, the truncated body no longer holds the clinical
marker, and everything but the final ":" is dropped. -/
theorem C1_counterexample :
    (sectionConcat (get_partial_content "hello".data) ≠ "hello".data ∧
      get_partial_content "hello".data =
        [("General Information", []), ("Document Footer Information", [])]) ∧
    sectionConcat (get_partial_content
        ("X".data ++ markerDiagnosisOuter ++ "Y".data ++ markerPrintDate)) ≠
      "X".data ++ markerDiagnosisOuter ++ "Y".data ++ markerPrintDate ∧
    sectionConcat (get_partial_content markerClinical) ≠ markerClinical := by
  decide

/-- C1 witness: a concrete two-character header, clinical body and print-date
footer are reassembled exactly. -/
theorem C1_reconstruction_witness :
    sectionConcat (get_partial_content
      ("AB".data ++ markerClinical ++ "xy".data ++ markerPrintDate ++ "Z".data)) =
      "AB".data ++ markerClinical ++ "xy".data ++ markerPrintDate ++ "Z".data :=
  C1_reconstruction _ 2 18 (by decide) (by decide)

/-! ### C2 — behaviour when the print-date marker is absent -/

/-- C2 (exhibit of the code bug): on the text made of the clinical marker
followed by "abc" the print-date marker is absent, yet the footer value is the
last character "c" of the body — not empty — and the body handed to the inner
sectioning has lost that character (the source slices with the unguarded
`find` result `-1`, lines 104-106). -/
theorem C2_footer_bug :
    strFind (markerClinical ++ "abc".data) markerPrintDate = none ∧
    get_partial_content (markerClinical ++ "abc".data) =
      [("General Information", []),
       ("Clinical Information", markerClinical ++ "ab".data),
       ("Document Footer Information", "c".data)] := by
  decide

/-! ### C4 — inner segmentation: priority order and shrinking window -/

/-- C4: the inner segmentation peels the body with the markers in the fixed
priority order macroscopic description, diagnosis, previous tests, clinical
information; each map entry is the section its peel step captured; a marker
found at index `j` of the current remainder captures exactly the substring
from `j` to the end of that remainder, and the remainder is truncated to the
part strictly before `j`; each remainder is a prefix of the previous one, so
the search window shrinks monotonically. -/
theorem C4_priority_peeling (body : List Char)
    (s1 s2 s3 s4 : Option (List Char) × List Char)
    (h1 : s1 = peel body markerMacroscopic)
    (h2 : s2 = peel s1.2 markerDiagnosis)
    (h3 : s3 = peel s2.2 markerPrevTests)
    (h4 : s4 = peel s3.2 markerClinical) :
    ((get_pathology_body_parts body).lookup "Macroscopic Description" = s1.1 ∧
     (get_pathology_body_parts body).lookup "Diagnosis" = s2.1 ∧
     (get_pathology_body_parts body).lookup "Previous Tests" = s3.1 ∧
     (get_pathology_body_parts body).lookup "Clinical Information" = s4.1) ∧
    (∀ j, strFind body markerMacroscopic = some j →
      s1.1 = some (body.drop j) ∧ s1.2 = body.take j) ∧
    (∀ j, strFind s1.2 markerDiagnosis = some j →
      s2.1 = some (s1.2.drop j) ∧ s2.2 = s1.2.take j) ∧
    (∀ j, strFind s2.2 markerPrevTests = some j →
      s3.1 = some (s2.2.drop j) ∧ s3.2 = s2.2.take j) ∧
    (∀ j, strFind s3.2 markerClinical = some j →
      s4.1 = some (s3.2.drop j) ∧ s4.2 = s3.2.take j) ∧
    (s1.2 <+: body ∧ s2.2 <+: s1.2 ∧ s3.2 <+: s2.2 ∧ s4.2 <+: s3.2) := by
  subst h4 h3 h2 h1
  refine ⟨⟨(gpbp_lookups body).2.2.2, (gpbp_lookups body).2.2.1,
      (gpbp_lookups body).2.1, (gpbp_lookups body).1⟩,
    ?_, ?_, ?_, ?_,
    peel_rem_pre _ _, peel_rem_pre _ _, peel_rem_pre _ _, peel_rem_pre _ _⟩ <;>
    (intro j hj; rw [peel_eq_of_find hj]; exact ⟨rfl, rfl⟩)

/-- C4 witness: a body that starts with the macroscopic marker is captured
whole by the first peel step. -/
theorem C4_priority_peeling_witness :
    (peel (markerMacroscopic ++ "z".data) markerMacroscopic).1 =
      some ((markerMacroscopic ++ "z".data).drop 0) ∧
    (peel (markerMacroscopic ++ "z".data) markerMacroscopic).2 =
      (markerMacroscopic ++ "z".data).take 0 :=
  (C4_priority_peeling (markerMacroscopic ++ "z".data) _ _ _ _
    rfl rfl rfl rfl).2.1 0 (by decide)

/-! ### C6 — order and presence of map entries -/

/-- Keys contributed by a conditional entry. -/
theorem map_fst_optEntry (n : String) (o : Option (List Char)) :
    (optEntry n o).map Prod.fst = if o.isSome then [n] else [] := by
  cases o <;> simp [optEntry]

/-- C6: the key sequence of the final map is `General Information` first,
then exactly the body sections whose markers were found during peeling, in
the fixed canonical order clinical information, previous tests, diagnosis,
macroscopic description, then `Document Footer Information` last; an absent
marker contributes no key at all. -/
theorem C6_map_order (t : List Char) (body : List Char)
    (s1 s2 s3 s4 : Option (List Char) × List Char)
    (hb : body = (footer_split (outer_split t).2).1)
    (h1 : s1 = peel body markerMacroscopic)
    (h2 : s2 = peel s1.2 markerDiagnosis)
    (h3 : s3 = peel s2.2 markerPrevTests)
    (h4 : s4 = peel s3.2 markerClinical) :
    (get_partial_content t).map Prod.fst =
      "General Information" ::
        ((if s4.1.isSome then ["Clinical Information"] else []) ++
         ((if s3.1.isSome then ["Previous Tests"] else []) ++
          ((if s2.1.isSome then ["Diagnosis"] else []) ++
           ((if s1.1.isSome then ["Macroscopic Description"] else []) ++
            ["Document Footer Information"])))) := by
  subst h4 h3 h2 h1 hb
  simp [get_partial_content, get_pathology_body_parts, map_fst_optEntry]

/-- C6 witness: a report holding only the clinical and diagnosis sections
yields exactly the four keys, in order, with no placeholder for the two
missing sections. -/
theorem C6_map_order_witness :
    (get_partial_content ("H".data ++ markerClinical ++ "x".data ++
        markerDiagnosis ++ "y".data ++ markerPrintDate ++ "z".data)).map Prod.fst =
      ["General Information", "Clinical Information", "Diagnosis",
       "Document Footer Information"] :=
  (C6_map_order _ _ _ _ _ _ rfl rfl rfl rfl rfl).trans (by decide)

/-! ### C10 — sections carry their own marker as a prefix -/

/-- C10: every non-synthetic section value present in the result of
`get_partial_content` begins with its own marker phrase: the marker is part
of the slice, not consumed by the search. -/
theorem C10_sections_carry_marker (t : List Char) :
    (∀ v, (get_partial_content t).lookup "Clinical Information" = some v →
      markerClinical <+: v) ∧
    (∀ v, (get_partial_content t).lookup "Previous Tests" = some v →
      markerPrevTests <+: v) ∧
    (∀ v, (get_partial_content t).lookup "Diagnosis" = some v →
      markerDiagnosis <+: v) ∧
    (∀ v, (get_partial_content t).lookup "Macroscopic Description" = some v →
      markerMacroscopic <+: v) := by
  refine ⟨?_, ?_, ?_, ?_⟩ <;> intro v hv
  · rw [gpc_lookup_body t _ (by decide) (by decide), (gpbp_lookups _).1] at hv
    exact peel_sec_pre hv
  · rw [gpc_lookup_body t _ (by decide) (by decide), (gpbp_lookups _).2.1] at hv
    exact peel_sec_pre hv
  · rw [gpc_lookup_body t _ (by decide) (by decide), (gpbp_lookups _).2.2.1] at hv
    exact peel_sec_pre hv
  · rw [gpc_lookup_body t _ (by decide) (by decide), (gpbp_lookups _).2.2.2] at hv
    exact peel_sec_pre hv

/-- Sample report holding all four body sections and a footer, used to
instantiate the universally quantified results. -/
def sampleReport : List Char :=
  "H".data ++ markerClinical ++ "a".data ++ markerPrevTests ++ "b".data ++
    markerDiagnosis ++ "c".data ++ markerMacroscopic ++ "d".data ++
    markerPrintDate ++ "E".data

/-- C10 witness: on `sampleReport` all four sections are present and each
starts with its marker. -/
theorem C10_sections_carry_marker_witness :
    markerClinical <+: markerClinical ++ "a".data ∧
    markerPrevTests <+: markerPrevTests ++ "b".data ∧
    markerDiagnosis <+: markerDiagnosis ++ "c".data ∧
    markerMacroscopic <+: markerMacroscopic ++ "d".data :=
  ⟨(C10_sections_carry_marker sampleReport).1 _ (by decide),
   (C10_sections_carry_marker sampleReport).2.1 _ (by decide),
   (C10_sections_carry_marker sampleReport).2.2.1 _ (by decide),
   (C10_sections_carry_marker sampleReport).2.2.2 _ (by decide)⟩

/-! ### C5 — the outer header/body split -/

/-- C5 counterexample: in the text made of the outer previous-tests marker
followed by the clinical marker, the positionally first body-begins marker is
the previous-tests one, at index 0 — so splitting at the first *occurring*
marker would make `General Information` empty — yet the code, which tries the
prioritized options in order and stops at the first that occurs anywhere,
splits at the clinical marker (index 17) and returns the whole previous-tests
marker as the header. -/
theorem C5_counterexample :
    strFind (markerPrevTestsOuter ++ markerClinical) markerPrevTestsOuter =
      some 0 ∧
    strFind (markerPrevTestsOuter ++ markerClinical) markerClinical = some 17 ∧
    (get_partial_content (markerPrevTestsOuter ++ markerClinical)).lookup
      "General Information" = some markerPrevTestsOuter ∧
    markerPrevTestsOuter ≠ [] := by
  decide

/-- C5 (amended): the outer split tries the body-begins markers in the fixed
priority order clinical information, outer previous tests, outer diagnosis,
and splits at the first occurrence of the first marker (in that order) that
occurs at all — regardless of the markers' relative positions in the text:
`General Information` is everything strictly before that occurrence and the
working body is everything from it onward; the `General Information` entry of
the final map is exactly the header so computed. -/
theorem C5_outer_split (t : List Char) :
    (∀ i, strFind t markerClinical = some i →
      outer_split t = (t.take i, t.drop i)) ∧
    (strFind t markerClinical = none →
      ∀ i, strFind t markerPrevTestsOuter = some i →
        outer_split t = (t.take i, t.drop i)) ∧
    (strFind t markerClinical = none →
      strFind t markerPrevTestsOuter = none →
        ∀ i, strFind t markerDiagnosisOuter = some i →
          outer_split t = (t.take i, t.drop i)) ∧
    (get_partial_content t).lookup "General Information" =
      some (outer_split t).1 := by
  refine ⟨?_, ?_, ?_, ?_⟩
  · intro i hi
    simp only [outer_split, hi]
  · intro h0 i hi
    simp only [outer_split, h0, hi]
  · intro h0 h1 i hi
    simp only [outer_split, h0, h1, hi]
  · simp [get_partial_content, List.lookup_cons]

/-- C5 witness: on the counterexample text the amended description holds —
the split happens at the clinical marker, index 17. -/
theorem C5_outer_split_witness :
    outer_split (markerPrevTestsOuter ++ markerClinical) =
      ((markerPrevTestsOuter ++ markerClinical).take 17,
       (markerPrevTestsOuter ++ markerClinical).drop 17) :=
  (C5_outer_split (markerPrevTestsOuter ++ markerClinical)).1 17 (by decide)

/-! ### C9 — text with no body-begins marker -/

/-- C9 counterexample: a text holding the print-date marker but none of the
body-begins markers.  If the footer search operated over the whole text the
footer would be nonempty; the code instead returns an empty footer because
the search runs over the empty body left by the failed outer split, and the
whole input is dropped. -/
theorem C9_counterexample :
    strFind ("X".data ++ markerPrintDate ++ "Y".data) markerClinical = none ∧
    strFind ("X".data ++ markerPrintDate ++ "Y".data) markerPrevTestsOuter = none ∧
    strFind ("X".data ++ markerPrintDate ++ "Y".data) markerDiagnosisOuter = none ∧
    strFind ("X".data ++ markerPrintDate ++ "Y".data) markerPrintDate = some 1 ∧
    get_partial_content ("X".data ++ markerPrintDate ++ "Y".data) =
      [("General Information", []), ("Document Footer Information", [])] := by
  decide

/-- C9 (amended): on a text holding none of the body-begins markers the map
is exactly the two synthetic keys with both values empty — the footer search
operates over the empty body left by the failed outer split (never over the
whole text), so the footer is empty even when the print-date marker occurs in
the text. -/
theorem C9_unmarked_text (t : List Char)
    (h1 : strFind t markerClinical = none)
    (h2 : strFind t markerPrevTestsOuter = none)
    (h3 : strFind t markerDiagnosisOuter = none) :
    get_partial_content t =
      [("General Information", []), ("Document Footer Information", [])] := by
  simp only [get_partial_content, outer_split, h1, h2, h3]
  decide

/-- C9 witness: the unmarked text "hello" yields the two empty synthetic
sections. -/
theorem C9_unmarked_text_witness :
    get_partial_content "hello".data =
      [("General Information", []), ("Document Footer Information", [])] :=
  C9_unmarked_text "hello".data (by decide) (by decide) (by decide)

/-! ### The extraction layer (lines 26-33 and the two upload callbacks)

The OCR, rasterization and native-PDF-text capabilities are external
collaborators; they enter the model as parameters: the per-page OCR outputs
for `extract_text_from_images`, and, for the callbacks, the text the native
path would produce and the text the OCR path would produce. -/

/-- Translation of `extract_text_from_images` (lines 26-33): the external
`pytesseract.image_to_string` calls are modelled by the given list of
per-page outputs; the source joins them with `"\n".join(text_per_page)`. -/
def extract_text_from_images (ocr_pages : List (List Char)) : List Char :=
  List.intercalate [ch 0xA] ocr_pages

/-- Formalisation of the claim's wording for the page join: concatenation
with a blank line — two newlines — between consecutive pages. -/
def blankLineJoin (ocr_pages : List (List Char)) : List Char :=
  List.intercalate [ch 0xA, ch 0xA] ocr_pages

/-- Python `str.isspace()`, the character set the no-argument `str.strip()`
removes.  This is the full CPython set: the ASCII whitespace 09-0D and 20,
the separator controls 1C-1F, NEL 85, NBSP A0, OGHAM SPACE MARK 1680, the
Unicode spaces 2000-200A, LINE SEPARATOR 2028, PARAGRAPH SEPARATOR 2029,
NARROW NBSP 202F, MEDIUM MATHEMATICAL SPACE 205F and IDEOGRAPHIC SPACE 3000.
(The bidi controls 202A-202C used by the section markers are not whitespace.) -/
def pyIsSpace (c : Char) : Bool :=
  (0x9 ≤ c.toNat && c.toNat ≤ 0xD) || c.toNat == 0x20 ||
    (0x1C ≤ c.toNat && c.toNat ≤ 0x1F) || c.toNat == 0x85 ||
    c.toNat == 0xA0 || c.toNat == 0x1680 ||
    (0x2000 ≤ c.toNat && c.toNat ≤ 0x200A) || c.toNat == 0x2028 ||
    c.toNat == 0x2029 || c.toNat == 0x202F || c.toNat == 0x205F ||
    c.toNat == 0x3000

/-- Python `str.strip()`: remove leading and trailing whitespace. -/
def pyStrip (s : List Char) : List Char :=
  ((s.dropWhile pyIsSpace).reverse.dropWhile pyIsSpace).reverse

/-- The fallback condition of the callbacks (lines 253 and 277):
`if not text.strip() or len(text) < 20`.  Note that the length test is on the
raw, unstripped text. -/
def ocrFallbackTriggered (text : List Char) : Bool :=
  (pyStrip text).isEmpty || decide (text.length < 20)

/-- Python `str.lower()` (ASCII range). -/
def pyLower (s : List Char) : List Char := s.map Char.toLower

/-- The suffix tested by `file_name.lower().endswith('.pdf')` (lines 251 and
275). -/
def pdfSuffixLower : List Char := ".pdf".data

/-- Outcome of an upload callback: the text it renders (`none` models
`PreventUpdate`, no output produced), together with whether the OCR fallback
path was invoked. -/
structure ExtractOutcome where
  output : Option (List Char)
  ocrInvoked : Bool
deriving DecidableEq

/-- Translation of the extraction part of `update_output_tab1` (lines
244-259).  `native_text` is what `extract_text_from_pdf(decoded)` returns and
`ocr_text` what `extract_text_from_images(pdf_to_images(decoded))` returns
(both external capabilities). -/
def update_output_tab1 (file_name native_text ocr_text : List Char) :
    ExtractOutcome :=
  if pdfSuffixLower.isSuffixOf (pyLower file_name) then
    if ocrFallbackTriggered native_text then ⟨some ocr_text, true⟩
    else ⟨some native_text, false⟩
  else ⟨none, false⟩

/-- The directional wrapping of line 283:
`text = f"'‫'{text}'‬'"` — a literal apostrophe, U+202B, another
apostrophe, the text, an apostrophe, U+202C, and a final apostrophe. -/
def wrapDirectional (text : List Char) : List Char :=
  [ch 0x27, ch 0x202B, ch 0x27] ++ text ++ [ch 0x27, ch 0x202C, ch 0x27]

/-- Translation of the extraction part of `update_output_tab2` (lines
268-284): same guard and fallback as tab 1, then the directional wrap and the
segmentation.  Returns the section map (or `none` for `PreventUpdate`) and
whether the OCR path was invoked. -/
def update_output_tab2 (file_name native_text ocr_text : List Char) :
    Option (List (String × List Char)) × Bool :=
  if pdfSuffixLower.isSuffixOf (pyLower file_name) then
    if ocrFallbackTriggered native_text then
      (some (get_partial_content (wrapDirectional ocr_text)), true)
    else
      (some (get_partial_content (wrapDirectional native_text)), false)
  else (none, false)

/-! ### C3 — the native-text sufficiency threshold -/

/-- C3 counterexample: a native text of 19 letters followed by one space has
raw length 20, so the code keeps the native result without invoking OCR —
although its stripped length is 19, for which the claim requires the OCR
fallback. -/
theorem C3_counterexample :
    update_output_tab1 "r.pdf".data
        (List.replicate 19 (ch 0x61) ++ [ch 0x20]) "ocr".data =
      ⟨some (List.replicate 19 (ch 0x61) ++ [ch 0x20]), false⟩ ∧
    (pyStrip (List.replicate 19 (ch 0x61) ++ [ch 0x20])).length = 19 := by
  decide

/-- Twenty non-breaking spaces strip to nothing, so the program treats such a
native text as blank and invokes the OCR fallback although its raw length
meets the threshold: the strip set is the full Unicode one, not just ASCII. -/
theorem ocrFallback_on_nbsp :
    ocrFallbackTriggered (List.replicate 20 (ch 0xA0)) = true := by
  decide

/-- C3 (amended): for a PDF file name, in both callbacks the native result is
kept (and OCR not invoked) if and only if the native text strips to something
nonempty AND its raw, unstripped length is at least 20; equivalently, OCR is
invoked exactly when the text is blank or its raw length is below 20.  The
boundary is on the raw length, not the stripped length. -/
theorem C3_threshold (file_name native_text ocr_text : List Char)
    (hpdf : pdfSuffixLower.isSuffixOf (pyLower file_name) = true) :
    (update_output_tab1 file_name native_text ocr_text =
        ⟨some native_text, false⟩ ↔
      ((pyStrip native_text).isEmpty = false ∧ 20 ≤ native_text.length)) ∧
    ((update_output_tab1 file_name native_text ocr_text).ocrInvoked = true ↔
      ((pyStrip native_text).isEmpty = true ∨ native_text.length < 20)) ∧
    ((update_output_tab2 file_name native_text ocr_text).2 = true ↔
      ((pyStrip native_text).isEmpty = true ∨ native_text.length < 20)) := by
  have hchar : ocrFallbackTriggered native_text = false ↔
      ((pyStrip native_text).isEmpty = false ∧ 20 ≤ native_text.length) := by
    simp [ocrFallbackTriggered, Nat.not_lt]
  have htrue : ocrFallbackTriggered native_text = true ↔
      ((pyStrip native_text).isEmpty = true ∨ native_text.length < 20) := by
    simp [ocrFallbackTriggered]
  cases hf : ocrFallbackTriggered native_text
  · have hu : update_output_tab1 file_name native_text ocr_text =
        ⟨some native_text, false⟩ := by
      simp [update_output_tab1, hpdf, hf]
    have hu2 : update_output_tab2 file_name native_text ocr_text =
        (some (get_partial_content (wrapDirectional native_text)), false) := by
      simp [update_output_tab2, hpdf, hf]
    rw [hu, hu2]
    have hnot : ¬((pyStrip native_text).isEmpty = true ∨
        native_text.length < 20) := by
      rw [← htrue, hf]
      simp
    exact ⟨iff_of_true rfl (hchar.mp hf),
      iff_of_false (by simp) hnot, iff_of_false (by simp) hnot⟩
  · have hu : update_output_tab1 file_name native_text ocr_text =
        ⟨some ocr_text, true⟩ := by
      simp [update_output_tab1, hpdf, hf]
    have hu2 : update_output_tab2 file_name native_text ocr_text =
        (some (get_partial_content (wrapDirectional ocr_text)), true) := by
      simp [update_output_tab2, hpdf, hf]
    rw [hu, hu2]
    refine ⟨iff_of_false ?_ ?_, iff_of_true rfl (htrue.mp hf),
      iff_of_true rfl (htrue.mp hf)⟩
    · intro h
      cases h
    · rw [← hchar, hf]
      simp

/-- C3 witness: twenty letters of native text are kept natively by both
callbacks. -/
theorem C3_threshold_witness :
    (update_output_tab1 "a.pdf".data (List.replicate 20 (ch 0x62)) "o".data =
        ⟨some (List.replicate 20 (ch 0x62)), false⟩ ↔
      ((pyStrip (List.replicate 20 (ch 0x62))).isEmpty = false ∧
        20 ≤ (List.replicate 20 (ch 0x62)).length)) ∧
    ((update_output_tab1 "a.pdf".data (List.replicate 20 (ch 0x62))
        "o".data).ocrInvoked = true ↔
      ((pyStrip (List.replicate 20 (ch 0x62))).isEmpty = true ∨
        (List.replicate 20 (ch 0x62)).length < 20)) ∧
    ((update_output_tab2 "a.pdf".data (List.replicate 20 (ch 0x62))
        "o".data).2 = true ↔
      ((pyStrip (List.replicate 20 (ch 0x62))).isEmpty = true ∨
        (List.replicate 20 (ch 0x62)).length < 20)) :=
  C3_threshold "a.pdf".data (List.replicate 20 (ch 0x62)) "o".data (by decide)

/-! ### C7 — the page join of the OCR fallback -/

/-- C7 counterexample: for two one-character pages the code joins with a
single newline, not with a blank line (two newlines) as the claim states. -/
theorem C7_counterexample :
    extract_text_from_images [[ch 0x61], [ch 0x62]] =
      [ch 0x61, ch 0xA, ch 0x62] ∧
    extract_text_from_images [[ch 0x61], [ch 0x62]] ≠
      blankLineJoin [[ch 0x61], [ch 0x62]] := by
  decide

/-- C7 (amended): the OCR result is the per-page outputs concatenated in page
order with a SINGLE newline — not a blank line — between consecutive pages. -/
theorem C7_single_newline_join :
    extract_text_from_images [] = [] ∧
    (∀ p : List Char, extract_text_from_images [p] = p) ∧
    (∀ (p q : List Char) (rest : List (List Char)),
      extract_text_from_images (p :: q :: rest) =
        p ++ ch 0xA :: extract_text_from_images (q :: rest)) := by
  refine ⟨rfl, fun p => ?_, fun p q rest => ?_⟩
  · simp [extract_text_from_images, List.intercalate]
  · simp [extract_text_from_images, List.intercalate,
      List.intersperse_cons_cons]

/-! ### C8 — rejection of non-PDF uploads -/

/-- C8: when the lowercased file name does not end in ".pdf", both callbacks
raise `PreventUpdate` — no output is produced — and the OCR path is never
invoked (lines 251/256-257 and 275/280-281). -/
theorem C8_non_pdf_rejected (file_name native_text ocr_text : List Char)
    (h : pdfSuffixLower.isSuffixOf (pyLower file_name) = false) :
    update_output_tab1 file_name native_text ocr_text = ⟨none, false⟩ ∧
    update_output_tab2 file_name native_text ocr_text = (none, false) := by
  constructor <;> simp [update_output_tab1, update_output_tab2, h]

/-- C8 witness: an uploaded "photo.png" is rejected by both callbacks. -/
theorem C8_non_pdf_rejected_witness :
    update_output_tab1 "photo.png".data "n".data "o".data = ⟨none, false⟩ ∧
    update_output_tab2 "photo.png".data "n".data "o".data = (none, false) :=
  C8_non_pdf_rejected "photo.png".data "n".data "o".data (by decide)

end PdfTextExtractor
